import Mathlib

/-!
Shallow embedding of the multi-strategy element-location engine of this
repository:

* `workflow_use/healing/xpath_optimizer.py`   (`XPathOptimizer`)
* `workflow_use/healing/selector_generator.py` (`SelectorGenerator`)
* `workflow_use/workflow/element_finder.py`    (`ElementFinder`)

Python strings are modelled as Lean `String` (operating on `String.data :
List Char` where the source manipulates characters), Python `dict`s that
preserve insertion order are modelled as association lists
`List (String × String)` (respectively `List (Nat × Node)` for the selector
map), Python `None` as `Option`, and Python floats that carry similarity
thresholds as `ℚ` (the comparisons settled here have margins far wider than
any double-rounding error).  All functions are total; the original code has
no reachable raising paths inside the modelled fragment other than the
`try/except` blocks that are dead for well-typed inputs.
-/

namespace RPA

/-- Python `s.split(sep)` for a single-character separator: keeps empty
chunks, `"".split(c) = ['']`. -/
def splitOnChar (sep : Char) : List Char → List (List Char)
  | [] => [[]]
  | c :: cs =>
    let r := splitOnChar sep cs
    if c = sep then [] :: r
    else
      match r with
      | [] => [[c]]
      | g :: gs => (c :: g) :: gs

/-- Python `needle in hay` (substring containment) on character lists. -/
def listSubstr (needle : List Char) : List Char → Bool
  | [] => needle.isEmpty
  | c :: rest => needle.isPrefixOf (c :: rest) || listSubstr needle rest

/-- Python `pat in s` for strings. -/
def strContains (hay pat : String) : Bool :=
  listSubstr pat.data hay.data

/-- Python `str.lower()` (ASCII case mapping, which covers every string
the claims exercise), computed on the character list so that kernel
reduction works. -/
def pyLower (s : String) : String :=
  String.mk (s.data.map Char.toLower)

/-- Python `str.strip()` with no argument: drop leading and trailing
whitespace. -/
def pyStrip (s : String) : String :=
  String.mk (((s.data.dropWhile Char.isWhitespace).reverse.dropWhile Char.isWhitespace).reverse)

/-- Python `s.startswith(p)`. -/
def pyStartsWith (s p : String) : Bool :=
  p.data.isPrefixOf s.data

/-- Words of a string: Python `str.split()` with no argument (split on
whitespace runs, dropping empties). -/
def wordsChars (cs : List Char) : List (List Char) :=
  let st := cs.foldr
    (fun c st =>
      if c.isWhitespace then
        match st.2 with
        | [] => (st.1, ([] : List Char))
        | w => (w :: st.1, [])
      else (st.1, c :: st.2))
    (([] : List (List Char)), ([] : List Char))
  match st.2 with
  | [] => st.1
  | w => w :: st.1

/-- Python `str.split()` with no argument, on strings. -/
def splitWhitespace (s : String) : List String :=
  (wordsChars s.data).map String.mk

/-- Python `'/'.join(...)` on character lists. -/
def joinSlash : List (List Char) → List Char
  | [] => []
  | [s] => s
  | s :: t :: rest => s ++ '/' :: joinSlash (t :: rest)

/-- First value bound to `k` in an insertion-ordered attribute dict. -/
def attrGet (attrs : List (String × String)) (k : String) : Option String :=
  (attrs.find? (fun p => p.1 = k)).map (·.2)

/-- Python truthiness of `attrs.get(k)`: the key is present and its value
is a non-empty string. -/
def attrTruthy (attrs : List (String × String)) (k : String) : Bool :=
  match attrGet attrs k with
  | some v => v ≠ ""
  | none => false

/-- A single-quote character, kept out of string literals. -/
def sq : String := String.mk ['\'']

/-- A double-quote character. -/
def dq : String := "\""

/-! ## `xpath_optimizer.escape_xpath_string` -/

/-- Builds the argument list of the `concat(...)` expression from the
chunks of `value.split("'")` (`escape_xpath_string`, lines 49-57). -/
def concatPieces (parts : List (List Char)) : List String :=
  (parts.enum).flatMap fun p =>
    (if p.2 ≠ [] then [dq ++ String.mk p.2 ++ dq] else []) ++
    (if p.1 < parts.length - 1 then [dq ++ sq ++ dq] else [])

/-- `xpath_optimizer.escape_xpath_string`. -/
def escape_xpath_string (value : String) : String :=
  if value = "" then sq ++ sq
  else if !value.data.contains '\'' then sq ++ value ++ sq
  else if !value.data.contains '"' then dq ++ value ++ dq
  else "concat(" ++ String.intercalate ", " (concatPieces (splitOnChar '\'' value.data)) ++ ")"

/-! ## `XPathOptimizer._parse_xpath` -/

/-- Character class of the regex `[a-zA-Z0-9_-]`. -/
def isTagChar (c : Char) : Bool :=
  (('a' ≤ c ∧ c ≤ 'z') ∨ ('A' ≤ c ∧ c ≤ 'Z') ∨ ('0' ≤ c ∧ c ≤ '9') ∨ c = '_' ∨ c = '-')

/-- Decimal digits to a number, as Python `int` on a digit string. -/
def digitsToNat (ds : List Char) : Nat :=
  ds.foldl (fun n c => 10 * n + (c.toNat - '0'.toNat)) 0

/-- Full match of the segment regex `^([a-zA-Z0-9_-]+)(?:\[(\d+)\])?$`:
returns the tag text and the optional bracketed index. -/
def matchSegment (cs : List Char) : Option (List Char × Option Nat) :=
  let tag := cs.takeWhile isTagChar
  let rest := cs.dropWhile isTagChar
  if tag = [] then none
  else
    match rest with
    | [] => some (tag, none)
    | '[' :: r =>
      let ds := r.takeWhile Char.isDigit
      if ds ≠ [] ∧ r.dropWhile Char.isDigit = [']'] then some (tag, some (digitsToNat ds))
      else none
    | _ => none

/-- Parsed path segment (`_parse_xpath` result entries
`{'tag': …, 'index': …, 'original': …}`). -/
structure Segment where
  tag : String
  index : Option Nat
  original : List Char
deriving DecidableEq, Repr

/-- Python truthiness of `part['index']`: present and non-zero. -/
def idxTruthy : Option Nat → Bool
  | some n => n ≠ 0
  | none => false

/-- `XPathOptimizer._parse_xpath` on the character list of the path:
strip leading `/`, split on `/`, keep only segments matched by the regex. -/
def parseXpathChars (cs : List Char) : List Segment :=
  (splitOnChar '/' (cs.dropWhile (· = '/'))).filterMap fun seg =>
    (matchSegment seg).map fun ti => ⟨String.mk ti.1, ti.2, seg⟩

/-- `XPathOptimizer._parse_xpath`. -/
def parse_xpath (xpath : String) : List Segment :=
  parseXpathChars xpath.data

/-! ## `XPathOptimizer` generator strategies -/

/-- The `element_info` dict handed to `optimize_xpath`
(`{'tag': …, 'text': …, 'attributes': …}`). -/
structure ElementInfo where
  tag : String
  text : String
  attributes : List (String × String)
deriving DecidableEq, Repr

/-- Bracketed-index suffix used when Python renders `f'[{part["index"]}]'`
behind an `if part['index']` truthiness test. -/
def idxSuffix (i : Option Nat) : String :=
  match i with
  | some n => if n ≠ 0 then "[" ++ toString n ++ "]" else ""
  | none => ""

/-- Loop body of `_build_relative_path`: the first rendered segment gets
`//`, later ones `/`. -/
def buildRelativeGo : List Segment → Bool → String
  | [], _ => ""
  | p :: ps, isFirst =>
    (if isFirst then "//" else "/") ++ p.tag ++ idxSuffix p.index ++ buildRelativeGo ps false

/-- `XPathOptimizer._build_relative_path` (skips the first part, which is
the anchor). -/
def build_relative_path (parts : List Segment) : String :=
  buildRelativeGo (parts.drop 1) true

/-- `parts[-1]['tag'] if parts else '*'`. -/
def lastTag (parts : List Segment) : String :=
  match parts.getLast? with
  | some p => p.tag
  | none => "*"

/-- `XPathOptimizer._generate_attribute_based_xpaths`.  The `parts`
argument is accepted but unused, as in the source. -/
def generate_attribute_based_xpaths (element_info : ElementInfo) (_parts : List Segment) :
    List String :=
  let tag := pyLower element_info.tag
  let attrs := element_info.attributes
  let text := pyStrip element_info.text
  (match attrGet attrs "id" with
   | some v => if v ≠ "" then ["//" ++ tag ++ "[@id=" ++ escape_xpath_string v ++ "]"] else []
   | none => []) ++
  (match attrGet attrs "name" with
   | some v => if v ≠ "" then ["//" ++ tag ++ "[@name=" ++ escape_xpath_string v ++ "]"] else []
   | none => []) ++
  (attrs.filterMap fun p =>
    if pyStartsWith p.1 "data-" ∧ p.2 ≠ "" then
      some ("//" ++ tag ++ "[@" ++ p.1 ++ "=" ++ escape_xpath_string p.2 ++ "]")
    else none) ++
  (match attrGet attrs "aria-label" with
   | some v => if v ≠ "" then ["//" ++ tag ++ "[@aria-label=" ++ escape_xpath_string v ++ "]"] else []
   | none => []) ++
  (match attrGet attrs "aria-labelledby" with
   | some v =>
     if v ≠ "" then ["//" ++ tag ++ "[@aria-labelledby=" ++ escape_xpath_string v ++ "]"] else []
   | none => []) ++
  (match attrGet attrs "role" with
   | some v =>
     if v ≠ "" then
       if text ≠ "" then
         ["//" ++ tag ++ "[@role=" ++ escape_xpath_string v ++ " and contains(text(), " ++
           escape_xpath_string text ++ ")]"]
       else ["//" ++ tag ++ "[@role=" ++ escape_xpath_string v ++ "]"]
     else []
   | none => []) ++
  (match attrGet attrs "class" with
   | some v =>
     if v ≠ "" then
       match (splitWhitespace v).find? (fun cls => cls ≠ "" ∧ !pyStartsWith cls "css-") with
       | some cls => ["//" ++ tag ++ "[contains(@class, " ++ escape_xpath_string cls ++ ")]"]
       | none => []
     else []
   | none => []) ++
  (if text ≠ "" then
     ["//" ++ tag ++ "[text()=" ++ escape_xpath_string text ++ "]"] ++
     (if text.length > 3 then
        ["//" ++ tag ++ "[contains(text(), " ++ escape_xpath_string text ++ ")]"]
      else [])
   else [])

/-- The fixed "stable container" tags of `_generate_anchored_xpaths`. -/
def anchorTags : List String :=
  ["table", "form", "nav", "header", "footer", "section", "article", "aside", "main"]

/-- First truthy sibling index among segments of tag `t`
(`next((p['index'] for p in parts if p['tag'] == t and p['index']), None)`). -/
def firstTruthyIndex (parts : List Segment) (t : String) : Option Nat :=
  match parts.find? (fun p => p.tag = t ∧ idxTruthy p.index) with
  | some p => p.index
  | none => none

/-- `XPathOptimizer._generate_anchored_xpaths`. -/
def generate_anchored_xpaths (parts : List Segment) (element_info : Option ElementInfo) :
    List String :=
  (parts.enum.flatMap fun ip =>
    if ip.2.tag ∈ anchorTags then
      let target_tag := lastTag parts
      let relative_path := build_relative_path (parts.drop ip.1)
      ["//" ++ ip.2.tag ++ relative_path] ++
      (match element_info with
       | some ei =>
         if ei.text ≠ "" then
           ["//" ++ ip.2.tag ++ "//" ++ target_tag ++ "[contains(text(), " ++
             escape_xpath_string ei.text ++ ")]"]
         else []
       | none => [])
    else []) ++
  (if parts.length ≥ 3 then
     (List.range (parts.length - 2)).flatMap fun i =>
       if (parts.drop i).head?.map (·.tag) = some "table" ∧
          (parts.drop i).any (·.tag = "tr") ∧ (parts.drop i).any (·.tag = "td") then
         let tr_idx := firstTruthyIndex (parts.drop i) "tr"
         let td_idx := firstTruthyIndex (parts.drop i) "td"
         match tr_idx, td_idx with
         | some trn, some tdn =>
           if trn ≠ 0 ∧ tdn ≠ 0 then
             let target_tag := lastTag parts
             ["//table//tr[" ++ toString trn ++ "]/td[" ++ toString tdn ++ "]//" ++ target_tag,
              "//table//tr[" ++ toString trn ++ "]/td[" ++ toString tdn ++ "]/" ++ target_tag]
           else []
         | _, _ => []
       else []
   else [])

/-- `XPathOptimizer._generate_positional_xpaths`. -/
def generate_positional_xpaths (parts : List Segment) (element_info : Option ElementInfo) :
    List String :=
  match parts with
  | [] => []
  | _ =>
    if parts.any (·.tag = "table") ∧ element_info.isSome then
      ["(//table//" ++ lastTag parts ++ ")[1]"]
    else []

/-- The stable tags of `_shorten_absolute_xpath`. -/
def stableTags : List String :=
  ["html", "body", "table", "form", "nav", "header", "footer", "main"]

/-- `XPathOptimizer._shorten_absolute_xpath`. -/
def shorten_absolute_xpath (parts : List Segment) : Option String :=
  if parts.length ≤ 4 then none
  else
    let last_stable_idx := parts.enum.foldl (fun acc ip => if ip.2.tag ∈ stableTags then ip.1 else acc) 0
    if last_stable_idx < parts.length - 3 then
      let keep_from := max last_stable_idx (parts.length - 3)
      some (String.mk ('/' :: joinSlash ((parts.drop keep_from).map (·.original))))
    else none

/-- The duplicate-removal loop of `optimize_xpath` (lines 132-138): drop
entries already seen and entries equal to the absolute path, preserving
first-seen order. -/
def dedupeAux (absolute : String) : List String → List String → List String
  | [], _ => []
  | x :: xs, seen =>
    if x ∈ seen ∨ x = absolute then dedupeAux absolute xs seen
    else x :: dedupeAux absolute xs (x :: seen)

/-- `XPathOptimizer.optimize_xpath`.  `max_alternatives` is a `Nat`; the
Python negative-int inputs behave identically to `0` (both take the
`max_alternatives <= 1` branch). -/
def optimize_xpath (absolute_xpath : String) (element_info : Option ElementInfo)
    (max_alternatives : Nat) : List String :=
  let parts := parse_xpath absolute_xpath
  let alternatives :=
    (match element_info with
     | some ei => generate_attribute_based_xpaths ei parts
     | none => []) ++
    generate_anchored_xpaths parts element_info ++
    generate_positional_xpaths parts element_info ++
    (match shorten_absolute_xpath parts with
     | some s => if s ≠ "" ∧ s ≠ absolute_xpath then [s] else []
     | none => [])
  let unique_alternatives := dedupeAux absolute_xpath alternatives []
  if max_alternatives ≤ 1 then [absolute_xpath]
  else unique_alternatives.take (max_alternatives - 1) ++ [absolute_xpath]

/-! ## `selector_generator.SelectorStrategy` and `SelectorGenerator` -/

/-- The open string-keyed `metadata` dict of a strategy, narrowed to the
keys the source ever writes or reads (`tag`, `role`, `threshold`,
`strategy`, `optimized`, `index`, `fallback`); absent keys are the
defaults. -/
structure Metadata where
  tag : String := ""
  role : String := ""
  threshold : Option ℚ := none
  strategy : String := ""
  optimized : Bool := false
  idx : Option Nat := none
  fallback : Bool := false
deriving DecidableEq, Repr

/-- `selector_generator.SelectorStrategy`. -/
structure SelectorStrategy where
  type : String
  value : String
  priority : Nat
  metadata : Metadata := {}
deriving DecidableEq, Repr

/-- The `element_data` dict consumed by `generate_strategies`; a missing
`xpath` key is the empty string (both are falsy in the source). -/
structure ElementData where
  tag_name : String := ""
  text : String := ""
  attributes : List (String × String) := []
  xpath : String := ""
deriving DecidableEq, Repr

/-- Constructor arguments of `SelectorGenerator.__init__`. -/
structure GeneratorConfig where
  enable_xpath_optimization : Bool := true
  max_xpath_alternatives : Nat := 2
  max_total_strategies : Nat := 2
deriving DecidableEq, Repr

/-- `SelectorGenerator._infer_role`.  Returns the raw attribute value when
a `role` key is present (even when empty, as the source does). -/
def infer_role (tag : String) (attrs : List (String × String)) : Option String :=
  match attrGet attrs "role" with
  | some r => some r
  | none =>
    let role_map : List (String × String) :=
      [("button", "button"), ("a", "link"), ("input", "textbox"), ("textarea", "textbox"),
       ("select", "combobox"), ("h1", "heading"), ("h2", "heading"), ("h3", "heading"),
       ("h4", "heading"), ("h5", "heading"), ("h6", "heading"), ("img", "img"),
       ("table", "table"), ("ul", "list"), ("ol", "list"), ("nav", "navigation")]
    if tag = "input" ∧ (attrGet attrs "type").isSome then
      let input_type := pyLower ((attrGet attrs "type").getD "")
      if input_type = "checkbox" then some "checkbox"
      else if input_type = "radio" then some "radio"
      else if input_type = "submit" then some "button"
      else attrGet role_map tag
    else attrGet role_map tag

/-- `SelectorGenerator._escape_xpath_value` (distinct from the optimizer's
`escape_xpath_string`). -/
def escape_xpath_value (value : String) : String :=
  if value.data.contains '\'' then
    if value.data.contains '"' then
      "concat(" ++ sq ++
        String.intercalate (sq ++ ", " ++ dq ++ sq ++ dq ++ ", " ++ sq)
          ((splitOnChar '\'' value.data).map String.mk) ++ sq ++ ")"
    else dq ++ value ++ dq
  else sq ++ value ++ sq

/-- `SelectorGenerator._generate_xpath`: best-effort expression from
attributes/text.  The `elif` chain appends at most one condition; when the
chain selects the `data-*` branch but every `data-*` value is falsy, no
condition is produced and the function returns `None`. -/
def generate_xpath (tag text : String) (attrs : List (String × String)) : Option String :=
  let base := if tag ≠ "" then "//" ++ tag else "//*"
  let cond : Option String :=
    if attrTruthy attrs "id" then
      some ("@id=" ++ escape_xpath_value ((attrGet attrs "id").getD ""))
    else if attrTruthy attrs "name" then
      some ("@name=" ++ escape_xpath_value ((attrGet attrs "name").getD ""))
    else if attrs.any (fun p => pyStartsWith p.1 "data-") then
      (attrs.find? (fun p => pyStartsWith p.1 "data-" ∧ p.2 ≠ "")).map
        (fun p => "@" ++ p.1 ++ "=" ++ escape_xpath_value p.2)
    else if attrTruthy attrs "aria-label" then
      some ("@aria-label=" ++ escape_xpath_value ((attrGet attrs "aria-label").getD ""))
    else if attrTruthy attrs "placeholder" then
      some ("@placeholder=" ++ escape_xpath_value ((attrGet attrs "placeholder").getD ""))
    else if text ≠ "" then
      some ("contains(text(), " ++ escape_xpath_value text ++ ")")
    else none
  cond.map (fun c => base ++ "[" ++ c ++ "]")

/-- `SelectorGenerator._calculate_xpath_priority`. -/
def calculate_xpath_priority (xpath : String) (is_absolute : Bool) : Nat :=
  if is_absolute ∨ pyStartsWith xpath "/html/body" then 10
  else if strContains xpath "@id=" ∨ strContains xpath "@id =" then 2
  else if strContains xpath "@name=" ∨ strContains xpath "@name =" then 2
  else if strContains xpath "@data-" then 2
  else if strContains xpath "@aria-label=" ∨ strContains xpath "@aria-labelledby=" ∨
          strContains xpath "@role=" then 3
  else if strContains xpath "//table//" ∧ (strContains xpath "tr[" ∨ strContains xpath "td[") then 4
  else if strContains xpath "//form//" then 4
  else if (strContains xpath "//table//" ∨ strContains xpath "//form//" ∨
           strContains xpath "//nav//") ∧ strContains xpath "text()" then 5
  else if strContains xpath "@class=" ∨ strContains xpath "contains(@class" then 6
  else if strContains xpath "text()" ∨ strContains xpath "contains(text()" then 7
  else if strContains xpath "[" ∧ strContains xpath "]" ∧ xpath.data.count '[' > 1 then 8
  else 5

/-- `SelectorGenerator._determine_xpath_strategy`. -/
def determine_xpath_strategy (xpath : String) : String :=
  if pyStartsWith xpath "/html/body" then "absolute-fallback"
  else if strContains xpath "@id=" ∨ strContains xpath "@id =" then "id-based"
  else if strContains xpath "@name=" ∨ strContains xpath "@name =" then "name-based"
  else if strContains xpath "@data-" then "data-attribute"
  else if strContains xpath "@aria-label=" ∨ strContains xpath "@aria-labelledby=" then "aria-based"
  else if strContains xpath "@role=" then "role-based"
  else if strContains xpath "//table//" ∧ (strContains xpath "tr[" ∨ strContains xpath "td[") then
    "table-anchored"
  else if strContains xpath "//form//" then "form-anchored"
  else if strContains xpath "//nav//" then "nav-anchored"
  else if strContains xpath "text()=" then "text-exact"
  else if strContains xpath "contains(text()" then "text-contains"
  else if strContains xpath "@class=" ∨ strContains xpath "contains(@class" then "class-based"
  else if strContains xpath "[" ∧ strContains xpath "]" then "positional"
  else "relative-xpath"

/-- The `for i, opt_xpath in enumerate(optimized_xpaths)` loop of
`generate_strategies` (lines 219-242): skips an absolute path occurring
before the final position, otherwise emits an `xpath` strategy with a
computed priority.  `i` is the running index, `total` the list length. -/
def optimizedStrategies (tag absolute_xpath : String) (total : Nat) :
    Nat → List String → List SelectorStrategy
  | _, [] => []
  | i, x :: xs =>
    (if x = absolute_xpath ∧ i < total - 1 then []
     else
       [{ type := "xpath", value := x,
          priority := calculate_xpath_priority x (x = absolute_xpath),
          metadata := { tag := tag, strategy := determine_xpath_strategy x,
                        optimized := true, idx := some i } }]) ++
    optimizedStrategies tag absolute_xpath total (i + 1) xs

/-- The XPath-fallback tier of `generate_strategies` (Strategy 8,
lines 196-280).  The `try/except` around `optimize_xpath` is dead in this
embedding because the optimizer is total. -/
def xpathTier (cfg : GeneratorConfig) (tag text : String) (attrs : List (String × String))
    (xpath : String) : List SelectorStrategy :=
  if cfg.enable_xpath_optimization then
    if xpath ≠ "" then
      let optimized_xpaths := optimize_xpath xpath (some ⟨tag, text, attrs⟩) cfg.max_xpath_alternatives
      optimizedStrategies tag xpath optimized_xpaths.length 0 optimized_xpaths
    else
      match generate_xpath tag text attrs with
      | some x => [{ type := "xpath", value := x, priority := 8,
                     metadata := { tag := tag, fallback := true } }]
      | none => []
  else
    let x := if xpath ≠ "" then some xpath else generate_xpath tag text attrs
    match x with
    | some v => [{ type := "xpath", value := v, priority := 8,
                   metadata := { tag := tag, fallback := true } }]
    | none => []

/-- Strategy 1 of `generate_strategies`: exact text match. -/
def strategyTextExact (tag text : String) : List SelectorStrategy :=
  if text ≠ "" then
    [{ type := "text_exact", value := text, priority := 1, metadata := { tag := tag } }]
  else []

/-- Strategy 2: role + text. -/
def strategyRoleText (tag text : String) (attrs : List (String × String)) :
    List SelectorStrategy :=
  match infer_role tag attrs with
  | some role =>
    if role ≠ "" ∧ text ≠ "" then
      [{ type := "role_text", value := text, priority := 2,
         metadata := { role := role, tag := tag } }]
    else []
  | none => []

/-- Strategy 3: ARIA label. -/
def strategyAriaLabel (tag : String) (attrs : List (String × String)) : List SelectorStrategy :=
  if attrTruthy attrs "aria-label" then
    [{ type := "aria_label", value := (attrGet attrs "aria-label").getD "", priority := 3,
       metadata := { tag := tag } }]
  else []

/-- Strategy 4: placeholder. -/
def strategyPlaceholder (tag : String) (attrs : List (String × String)) :
    List SelectorStrategy :=
  if attrTruthy attrs "placeholder" then
    [{ type := "placeholder", value := (attrGet attrs "placeholder").getD "", priority := 4,
       metadata := { tag := tag } }]
  else []

/-- Strategy 5: title attribute. -/
def strategyTitle (tag : String) (attrs : List (String × String)) : List SelectorStrategy :=
  if attrTruthy attrs "title" then
    [{ type := "title", value := (attrGet attrs "title").getD "", priority := 5,
       metadata := { tag := tag } }]
  else []

/-- Strategy 6: alt text. -/
def strategyAltText (tag : String) (attrs : List (String × String)) : List SelectorStrategy :=
  if attrTruthy attrs "alt" then
    [{ type := "alt_text", value := (attrGet attrs "alt").getD "", priority := 6,
       metadata := { tag := tag } }]
  else []

/-- Strategy 7: fuzzy text match (only for text longer than 3). -/
def strategyTextFuzzy (tag text : String) : List SelectorStrategy :=
  if text ≠ "" ∧ text.length > 3 then
    [{ type := "text_fuzzy", value := text, priority := 7,
       metadata := { threshold := some (4/5), tag := tag } }]
  else []

/-- The strategy list built by `generate_strategies` before sorting and
capping (Strategies 1-8). -/
def genUnsorted (cfg : GeneratorConfig) (element_data : ElementData)
    (include_xpath_fallback : Bool) : List SelectorStrategy :=
  let tag := pyLower element_data.tag_name
  let text := pyStrip element_data.text
  let attrs := element_data.attributes
  strategyTextExact tag text ++
  strategyRoleText tag text attrs ++
  strategyAriaLabel tag attrs ++
  strategyPlaceholder tag attrs ++
  strategyTitle tag attrs ++
  strategyAltText tag attrs ++
  strategyTextFuzzy tag text ++
  (if include_xpath_fallback then xpathTier cfg tag text attrs element_data.xpath else [])

/-- Stable insertion of a strategy before the first entry of not-lower
priority; together with `sortStrategies` this models Python's stable
`list.sort(key=lambda s: s.priority)`. -/
def insertStrategy (s : SelectorStrategy) : List SelectorStrategy → List SelectorStrategy
  | [] => [s]
  | t :: ts => if s.priority ≤ t.priority then s :: t :: ts else t :: insertStrategy s ts

/-- Stable sort by ascending `priority`. -/
def sortStrategies : List SelectorStrategy → List SelectorStrategy
  | [] => []
  | s :: ss => insertStrategy s (sortStrategies ss)

/-- `SelectorGenerator.generate_strategies`: build, sort ascending by
priority, then cap to `max_total_strategies` when that cap is truthy. -/
def generate_strategies (cfg : GeneratorConfig) (element_data : ElementData)
    (include_xpath_fallback : Bool) : List SelectorStrategy :=
  let strategies := sortStrategies (genUnsorted cfg element_data include_xpath_fallback)
  if cfg.max_total_strategies ≠ 0 ∧ strategies.length > cfg.max_total_strategies then
    strategies.take cfg.max_total_strategies
  else strategies

/-! ## `difflib.SequenceMatcher` (used by `ElementFinder._fuzzy_match`)

`_fuzzy_match` calls the standard library's
`SequenceMatcher(None, target.lower(), candidate.lower()).ratio()`.
The model below reproduces its matching-block algorithm for inputs under
the autojunk threshold (second sequence shorter than 200 elements, so no
element is junk), which covers every call the finder makes on the claim
instances.  `ratio` is `2 * M / (len(a) + len(b))` where `M` is the total
size of the matching blocks, here over `ℚ`. -/

/-- Result of `find_longest_match`. -/
structure FlmBest where
  besti : Nat
  bestj : Nat
  bestsize : Nat
deriving DecidableEq, Repr

/-- `b2j[c]`: ascending positions of `c` in `b` (no junk). -/
def b2j (b : List Char) (c : Char) : List Nat :=
  (List.range b.length).filter (fun j => b.get? j == some c)

/-- Lookup in the `j2len` association map, `0` when absent. -/
def lookupJ (l : List (Nat × Nat)) (j : Nat) : Nat :=
  match l.find? (fun p => p.1 = j) with
  | some p => p.2
  | none => 0

/-- Inner step of `find_longest_match`'s row loop: extends the run ending
at `(i, j)` and records it when strictly longer than the best so far. -/
def flmRowStep (j2len : List (Nat × Nat)) (i : Nat) (st : List (Nat × Nat) × FlmBest)
    (j : Nat) : List (Nat × Nat) × FlmBest :=
  let k := (if j = 0 then 0 else lookupJ j2len (j - 1)) + 1
  let best := if k > st.2.bestsize then FlmBest.mk (i + 1 - k) (j + 1 - k) k else st.2
  ((j, k) :: st.1, best)

/-- `SequenceMatcher.find_longest_match` restricted to `a[alo:ahi]`,
`b[blo:bhi]` with an empty junk set (the junk-extension loops are then
no-ops). -/
def find_longest_match (a b : List Char) (alo ahi blo bhi : Nat) : FlmBest :=
  ((List.range' alo (ahi - alo)).foldl
    (fun st i =>
      let js := (b2j b (a.getD i ' ')).filter (fun j => blo ≤ j ∧ j < bhi)
      js.foldl (flmRowStep st.1 i) ([], st.2))
    ([], ⟨alo, blo, 0⟩)).2

/-- Total size of the matching blocks produced by the recursive
decomposition of `get_matching_blocks` (the queue order and the final
adjacent-block merge do not change the total).  `fuel` dominates the
recursion depth; `a.length + b.length + 1` always suffices. -/
def matchingSum (a b : List Char) : Nat → Nat → Nat → Nat → Nat → Nat
  | 0, _, _, _, _ => 0
  | fuel + 1, alo, ahi, blo, bhi =>
    let m := find_longest_match a b alo ahi blo bhi
    if m.bestsize = 0 then 0
    else
      matchingSum a b fuel alo m.besti blo m.bestj + m.bestsize +
      matchingSum a b fuel (m.besti + m.bestsize) ahi (m.bestj + m.bestsize) bhi

/-- `SequenceMatcher.ratio()` over `ℚ` (`difflib._calculate_ratio`). -/
def seq_ratio (a b : List Char) : ℚ :=
  let length := a.length + b.length
  if length = 0 then 1
  else 2 * (matchingSum a b (length + 1) 0 a.length 0 b.length : ℚ) / (length : ℚ)

/-- `ElementFinder._fuzzy_match`: case-insensitive similarity against a
threshold. -/
def fuzzy_match (target candidate : String) (threshold : ℚ) : Bool :=
  decide (threshold ≤ seq_ratio (pyLower target).data (pyLower candidate).data)

/-! ## `element_finder.ElementFinder` -/

/-- Current-state node exposed by the snapshot provider, with the fields
the finder reads; `get_attr`'s defaults are the field defaults
(`is_visible` defaults to `true`, line 234). -/
structure Node where
  text : String := ""
  tag_name : String := ""
  role : String := ""
  aria_label : String := ""
  placeholder : String := ""
  title : String := ""
  alt : String := ""
  attributes : List (String × String) := []
  is_visible : Bool := true
deriving DecidableEq, Repr

/-- Result of the JavaScript XPath probe built by `_find_with_xpath`:
either `{error: …}` or `{found, visible, tag, text}`; `Option.none` at
the call site models the `null` evaluation result. -/
inductive JSResult where
  | error (msg : String)
  | node (found : Bool) (visible : Bool) (tag : String) (text : String)
deriving DecidableEq, Repr

/-- The live page handle: the path-evaluation channel, abstracted as a
function from the (normalized) path expression submitted by
`_find_with_xpath` to the probe outcome. -/
structure Page where
  evalXPath : String → Option JSResult

/-- Per-call environment: `browser_session.get_current_page()` yielding no
page or raising is `page = none`; `get_selector_map()` raising is
`selector_map = none` (an empty map is `some []`, which is falsy below
exactly as an empty dict is in the source). -/
structure Env where
  page : Option Page
  selector_map : Option (List (Nat × Node))

/-- Modelled from the spec: the `StrategyAttempt` audit record imported
from `workflow_use.workflow.error_reporter`, a module whose source is not
in the repository snapshot; §3 of the specification gives its shape (one
record per strategy tried: strategy kind/value/priority, success flag,
optional error message, metadata), matching every constructor call in
`element_finder.py`. -/
structure StrategyAttempt where
  strategy_type : String
  strategy_value : String
  priority : Nat
  success : Bool
  error_message : Option String := none
  metadata : Metadata := {}
deriving DecidableEq, Repr

/-- Successful attempt record (`element_finder.py` lines 96-104/129-137). -/
def successAttempt (s : SelectorStrategy) : StrategyAttempt :=
  { strategy_type := s.type, strategy_value := s.value, priority := s.priority,
    success := true, metadata := s.metadata }

/-- Failed attempt record (lines 156-165). -/
def failAttempt (s : SelectorStrategy) (msg : String) : StrategyAttempt :=
  { strategy_type := s.type, strategy_value := s.value, priority := s.priority,
    success := false, error_message := some msg, metadata := s.metadata }

/-- What a successful locate call hands back as its first tuple component:
an XPath string (path strategies) or an element index (semantic ones). -/
inductive Loc where
  | xpathResult (xpath : String)
  | elementIndex (index : Nat)
deriving DecidableEq, Repr

/-- `ElementFinder._matches_strategy` (pure on a well-typed node; the
wrapping try/except is unreachable then). -/
def matches_strategy (node : Node) (strategy_type value : String) (metadata : Metadata) :
    Bool :=
  if strategy_type = "text_exact" then pyStrip node.text == value
  else if strategy_type = "role_text" then
    let expected_role := pyLower metadata.role
    let node_role := if node.role ≠ "" then node.role else node.tag_name
    let node_role := if node_role ≠ "" then pyLower node_role else ""
    node_role == expected_role && pyStrip node.text == value
  else if strategy_type = "aria_label" then pyStrip node.aria_label == value
  else if strategy_type = "placeholder" then pyStrip node.placeholder == value
  else if strategy_type = "title" then pyStrip node.title == value
  else if strategy_type = "alt_text" then pyStrip node.alt == value
  else if strategy_type = "text_fuzzy" then
    fuzzy_match value (pyStrip node.text) (metadata.threshold.getD (4/5))
  else false

/-- The advisory target-text cross-check of `_validate_element_in_map`
(lines 240-284): substring containment in either direction between the
lowercased trimmed hint and any non-empty text source.  Its outcome is
only logged, never used to reject. -/
def target_text_found_match (node : Node) (target_text : String) : Bool :=
  let target_lower := pyStrip (pyLower target_text)
  let text_sources :=
    (if node.text ≠ "" then [pyStrip (pyLower node.text)] else []) ++
    (if node.aria_label ≠ "" then [pyStrip (pyLower node.aria_label)] else []) ++
    (if node.placeholder ≠ "" then [pyStrip (pyLower node.placeholder)] else []) ++
    (if node.title ≠ "" then [pyStrip (pyLower node.title)] else []) ++
    (if node.alt ≠ "" then [pyStrip (pyLower node.alt)] else []) ++
    (match attrGet node.attributes "name" with
     | some v => [pyStrip (pyLower v)]
     | none => [])
  text_sources.any fun source =>
    source ≠ "" && (strContains source target_lower || strContains target_lower source)

/-- `ElementFinder._validate_element_in_map`: visibility is the hard gate;
the `target_text` block (see `target_text_found_match`) only logs, so the
result is the visibility flag. -/
def validate_element_in_map (node : Node) (_target_text : Option String) : Bool :=
  node.is_visible

/-- `ElementFinder._find_with_semantic_strategy`: first selector-map entry
that matches the strategy and validates. -/
def find_with_semantic_strategy (strategy_type value : String) (metadata : Metadata)
    (selector_map : List (Nat × Node)) (target_text : Option String) : Option (Nat × Node) :=
  selector_map.find? fun e =>
    matches_strategy e.2 strategy_type value metadata &&
    validate_element_in_map e.2 target_text

/-- `ElementFinder._find_with_xpath`: normalize the expression, submit it
to the live-evaluation channel, and accept only a found and visible node;
`target_text` is accepted and ignored, as in the source. -/
def find_with_xpath (xpath : String) (page : Page) (_target_text : Option String) :
    Option (String × String) :=
  let normalized :=
    if xpath ≠ "" ∧ ¬pyStartsWith xpath "/" ∧ ¬pyStartsWith xpath "(" then "/" ++ xpath else xpath
  match page.evalXPath normalized with
  | none => none
  | some (.error _) => none
  | some (.node found visible _ _) =>
    if !found then none
    else if !visible then none
    else some (normalized, normalized)

/-- The semantic strategy types of the `elif` membership test
(lines 113-121). -/
def semanticTypes : List String :=
  ["text_exact", "role_text", "aria_label", "placeholder", "title", "alt_text", "text_fuzzy"]

/-- Python truthiness of the fetched selector map (`None` and the empty
dict are falsy). -/
def selTruthy : Option (List (Nat × Node)) → Bool
  | some (_ :: _) => true
  | _ => false

/-- One iteration of the strategy loop (lines 79-165): the outcome and
the audit record it appends. -/
def tryStrategy (page : Page) (sel : Option (List (Nat × Node))) (target_text : Option String)
    (s : SelectorStrategy) : Option Loc × StrategyAttempt :=
  if s.type = "xpath" then
    match find_with_xpath s.value page target_text with
    | some r => (some (.xpathResult r.1), successAttempt s)
    | none => (none, failAttempt s "XPath query returned no results")
  else if selTruthy sel ∧ s.type ∈ semanticTypes then
    match find_with_semantic_strategy s.type s.value s.metadata (sel.getD []) target_text with
    | some r => (some (.elementIndex r.1), successAttempt s)
    | none => (none, failAttempt s "No matching element found in DOM")
  else
    (none,
     failAttempt s
       (if !selTruthy sel then "Selector map not available for semantic strategy"
        else "Strategy type " ++ dq ++ s.type ++ dq ++ " not supported"))

/-- The `for` loop over the sorted strategies: first success wins, every
attempt is recorded in order. -/
def findLoop (page : Page) (sel : Option (List (Nat × Node))) (target_text : Option String) :
    List SelectorStrategy → Option (Loc × SelectorStrategy) × List StrategyAttempt
  | [] => (none, [])
  | s :: rest =>
    match tryStrategy page sel target_text s with
    | (some loc, att) => (some (loc, s), [att])
    | (none, att) =>
      let r := findLoop page sel target_text rest
      (r.1, att :: r.2)

/-- `ElementFinder.find_element_with_strategies`: empty input or a missing
page short-circuits to `(None, [])`; otherwise the strategies are sorted
by ascending priority and tried in order. -/
def find_element_with_strategies (strategies : List SelectorStrategy) (env : Env)
    (target_text : Option String) : Option (Loc × SelectorStrategy) × List StrategyAttempt :=
  match strategies with
  | [] => (none, [])
  | _ =>
    match env.page with
    | none => (none, [])
    | some page => findLoop page env.selector_map target_text (sortStrategies strategies)

/-! ## Lemmas about the duplicate-removal pass -/

theorem mem_dedupeAux {a : String} :
    ∀ {l seen : List String} {x : String}, x ∈ dedupeAux a l seen → x ∉ seen ∧ x ≠ a := by
  intro l
  induction l with
  | nil => intro seen x h; simp [dedupeAux] at h
  | cons y ys ih =>
    intro seen x h
    rw [dedupeAux] at h
    by_cases hc : y ∈ seen ∨ y = a
    · rw [if_pos hc] at h
      exact ih h
    · rw [if_neg hc] at h
      rcases List.mem_cons.mp h with rfl | h
      · push_neg at hc
        exact hc
      · have := ih h
        refine ⟨fun hx => this.1 (List.mem_cons_of_mem _ hx), this.2⟩

theorem nodup_dedupeAux {a : String} :
    ∀ (l seen : List String), (dedupeAux a l seen).Nodup := by
  intro l
  induction l with
  | nil => intro seen; simp [dedupeAux]
  | cons y ys ih =>
    intro seen
    rw [dedupeAux]
    by_cases hc : y ∈ seen ∨ y = a
    · rw [if_pos hc]; exact ih _
    · rw [if_neg hc]
      refine List.nodup_cons.mpr ⟨fun hy => ?_, ih _⟩
      exact (mem_dedupeAux hy).1 (List.mem_cons_self _ _)

theorem nodup_optimize_xpath (a : String) (ei : Option ElementInfo) (n : Nat) :
    (optimize_xpath a ei n).Nodup := by
  simp only [optimize_xpath]
  by_cases h : n ≤ 1
  · rw [if_pos h]; simp
  · rw [if_neg h]
    refine List.Nodup.append ((nodup_dedupeAux _ _).sublist (List.take_sublist _ _)) (by simp) ?_
    intro x hx hy
    exact (mem_dedupeAux (List.take_subset _ _ hx)).2 (List.mem_singleton.mp hy)

/-! ## Claim theorems: Path Optimizer cardinality (C1, C5) -/

/-- C1 (counterexample): for the absolute path `/a` with no descriptor and
`max_alternatives = 3 ≥ 2`, `optimize_xpath` produces no optimized
alternative at all and returns the one-element list `["/a"]`, so it does
not return *exactly* `max_alternatives` path expressions. -/
theorem c1_counterexample :
    optimize_xpath "/a" none 3 = ["/a"] ∧ (optimize_xpath "/a" none 3).length ≠ 3 := by
  decide

/-- C1 (amended): for `max_alternatives = N ≥ 2`, `optimize_xpath` returns
*at most* `N` path expressions (at least one), whose last entry is the
input absolute path and whose earlier entries are pairwise distinct and
each distinct from the absolute path. -/
theorem c1_optimize_xpath_shape (a : String) (ei : Option ElementInfo) (n : Nat)
    (h : 2 ≤ n) :
    (optimize_xpath a ei n).length ≤ n ∧
    1 ≤ (optimize_xpath a ei n).length ∧
    (optimize_xpath a ei n).getLast? = some a ∧
    (optimize_xpath a ei n).dropLast.Nodup ∧
    ∀ x ∈ (optimize_xpath a ei n).dropLast, x ≠ a := by
  have hn : ¬ n ≤ 1 := by omega
  simp only [optimize_xpath, if_neg hn]
  refine ⟨?_, ?_, ?_, ?_, ?_⟩
  · have := List.length_take_le (n - 1) (dedupeAux a ((match ei with
      | some e => generate_attribute_based_xpaths e (parse_xpath a)
      | none => []) ++ generate_anchored_xpaths (parse_xpath a) ei ++
      generate_positional_xpaths (parse_xpath a) ei ++
      (match shorten_absolute_xpath (parse_xpath a) with
       | some s => if s ≠ "" ∧ s ≠ a then [s] else []
       | none => [])) [])
    simp only [List.length_append, List.length_singleton]
    omega
  · simp
  · exact List.getLast?_concat _
  · rw [List.dropLast_concat]
    exact (nodup_dedupeAux _ _).sublist (List.take_sublist _ _)
  · rw [List.dropLast_concat]
    intro x hx
    exact (mem_dedupeAux (List.take_subset _ _ hx)).2

/-- C1 (witness for the amended theorem), instantiated at the end-to-end
example of the specification. -/
theorem c1_optimize_xpath_shape_witness :
    2 ≤ 3 ∧
    ((optimize_xpath "/html/body/form/div[3]/table/tbody/tr[2]/td[3]/a"
        (some ⟨"a", "License 12345", [("class", "license-link"), ("href", "/license/12345")]⟩)
        3).length ≤ 3 ∧
     1 ≤ (optimize_xpath "/html/body/form/div[3]/table/tbody/tr[2]/td[3]/a"
        (some ⟨"a", "License 12345", [("class", "license-link"), ("href", "/license/12345")]⟩)
        3).length ∧
     (optimize_xpath "/html/body/form/div[3]/table/tbody/tr[2]/td[3]/a"
        (some ⟨"a", "License 12345", [("class", "license-link"), ("href", "/license/12345")]⟩)
        3).getLast? = some "/html/body/form/div[3]/table/tbody/tr[2]/td[3]/a" ∧
     (optimize_xpath "/html/body/form/div[3]/table/tbody/tr[2]/td[3]/a"
        (some ⟨"a", "License 12345", [("class", "license-link"), ("href", "/license/12345")]⟩)
        3).dropLast.Nodup ∧
     ∀ x ∈ (optimize_xpath "/html/body/form/div[3]/table/tbody/tr[2]/td[3]/a"
        (some ⟨"a", "License 12345", [("class", "license-link"), ("href", "/license/12345")]⟩)
        3).dropLast, x ≠ "/html/body/form/div[3]/table/tbody/tr[2]/td[3]/a") :=
  ⟨by decide, c1_optimize_xpath_shape _ _ 3 (by decide)⟩

/-- C5: with `max_alternatives ≤ 1` (the source's `<= 1` branch, covering
`1`, `0` and, in Python, negative values) `optimize_xpath` returns exactly
the single-element list containing the absolute path. -/
theorem c5_optimize_xpath_cap_one (a : String) (ei : Option ElementInfo) (n : Nat)
    (h : n ≤ 1) : optimize_xpath a ei n = [a] := by
  simp only [optimize_xpath, if_pos h]

/-- C5 (witness): `max_alternatives = 1` at the specification's example. -/
theorem c5_optimize_xpath_cap_one_witness :
    1 ≤ 1 ∧
    optimize_xpath "/html/body/form/div[3]/table/tbody/tr[2]/td[3]/a"
        (some ⟨"a", "License 12345", [("class", "license-link"), ("href", "/license/12345")]⟩)
        1 = ["/html/body/form/div[3]/table/tbody/tr[2]/td[3]/a"] :=
  ⟨by decide, c5_optimize_xpath_cap_one _ _ 1 (by decide)⟩

/-! ## Claim theorems: Element Locator error handling and validation -/

/-- C10: when the current page cannot be obtained (`get_current_page`
yields nothing or raises, both modelled by `page = none`), the locate
call returns `NotFound` with an empty audit trail, for every strategy
list — in particular non-empty ones — and every selector-map outcome. -/
theorem c10_no_page_empty_audit (strategies : List SelectorStrategy)
    (sel : Option (List (Nat × Node))) (target_text : Option String) :
    find_element_with_strategies strategies ⟨none, sel⟩ target_text = (none, []) := by
  cases strategies <;> rfl

/-- C7: a semantic strategy never returns an invisible node: whatever the
strategy kind, value, metadata, selector map and target-text hint, a
returned match is a visible node. -/
theorem c7_semantic_match_is_visible (strategy_type value : String) (metadata : Metadata)
    (selector_map : List (Nat × Node)) (target_text : Option String) (i : Nat) (n : Node)
    (h : find_with_semantic_strategy strategy_type value metadata selector_map target_text =
      some (i, n)) :
    n.is_visible = true := by
  have hp := List.find?_some h
  simp only [Bool.and_eq_true] at hp
  exact hp.2

/-- C7 (witness): a two-node map whose first, invisible node has the
matching text; the visible second node is the one returned. -/
theorem c7_semantic_match_is_visible_witness :
    find_with_semantic_strategy "text_exact" "Go" {}
        [(0, { text := "Go", is_visible := false }), (1, { text := "Go" })] none =
      some (1, { text := "Go" }) ∧
    ({ text := "Go" } : Node).is_visible = true :=
  ⟨by decide,
   c7_semantic_match_is_visible "text_exact" "Go" {}
     [(0, { text := "Go", is_visible := false }), (1, { text := "Go" })] none 1 { text := "Go" }
     (by decide)⟩

/-- C8: the `targetText` hint is advisory only — the locate result (match
and audit trail) and the semantic-strategy scan are identical with and
without any hint, and concretely a hint matching none of a node's text
sources does not reject that node's match. -/
theorem c8_target_text_never_rejects :
    (∀ (strategies : List SelectorStrategy) (env : Env) (t : String),
       find_element_with_strategies strategies env (some t) =
         find_element_with_strategies strategies env none) ∧
    (∀ (strategy_type value : String) (metadata : Metadata)
       (selector_map : List (Nat × Node)) (t : String),
       find_with_semantic_strategy strategy_type value metadata selector_map (some t) =
         find_with_semantic_strategy strategy_type value metadata selector_map none) ∧
    (target_text_found_match { text := "Save" } "Cancel" = false ∧
     find_with_semantic_strategy "text_exact" "Save" {} [(4, { text := "Save" })]
        (some "Cancel") = some (4, { text := "Save" })) := by
  have htry : ∀ (page : Page) (sel : Option (List (Nat × Node))) (t : String)
      (s : SelectorStrategy), tryStrategy page sel (some t) s = tryStrategy page sel none s :=
    fun _ _ _ _ => rfl
  have hloop : ∀ (page : Page) (sel : Option (List (Nat × Node))) (t : String)
      (l : List SelectorStrategy), findLoop page sel (some t) l = findLoop page sel none l := by
    intro page sel t l
    induction l with
    | nil => rfl
    | cons s rest ih =>
      simp only [findLoop, htry, ih]
  refine ⟨?_, fun _ _ _ _ _ => rfl, by decide, by decide⟩
  intro strategies env t
  cases strategies with
  | nil => rfl
  | cons s rest =>
    cases hp : env.page with
    | none => simp [find_element_with_strategies, hp]
    | some page => simp [find_element_with_strategies, hp, hloop]

/-! ## Claim theorems: fuzzy matcher (C9) -/

theorem seq_ratio_submit_submitt :
    seq_ratio ['s', 'u', 'b', 'm', 'i', 't'] ['s', 'u', 'b', 'm', 'i', 't', 't'] = 12 / 13 := by
  have hm : matchingSum ['s', 'u', 'b', 'm', 'i', 't'] ['s', 'u', 'b', 'm', 'i', 't', 't']
      14 0 6 0 7 = 6 := by decide
  simp only [seq_ratio]
  norm_num [hm]

theorem seq_ratio_submit_submit_form :
    seq_ratio ['s', 'u', 'b', 'm', 'i', 't']
      ['s', 'u', 'b', 'm', 'i', 't', ' ', 'f', 'o', 'r', 'm'] = 12 / 17 := by
  have hm : matchingSum ['s', 'u', 'b', 'm', 'i', 't']
      ['s', 'u', 'b', 'm', 'i', 't', ' ', 'f', 'o', 'r', 'm'] 18 0 6 0 11 = 6 := by decide
  simp only [seq_ratio]
  norm_num [hm]

/-- C9: the fuzzy matcher accepts exactly when the similarity ratio of the
lowercased strings meets the threshold (first conjunct, the
case-insensitivity contract), and concretely: `"Submit"` vs `"Submitt"`
matches at threshold `0.8`; `"Submit"` vs `"Submit Form"` matches at `0.7`
but not at `0.8`; a fully case-mangled pair behaves like its lowercase
form. -/
theorem c9_fuzzy_match_spec :
    (∀ (target candidate : String) (threshold : ℚ),
       fuzzy_match target candidate threshold =
         decide (threshold ≤ seq_ratio (pyLower target).data (pyLower candidate).data)) ∧
    fuzzy_match "Submit" "Submitt" (8 / 10) = true ∧
    fuzzy_match "Submit" "Submit Form" (7 / 10) = true ∧
    fuzzy_match "Submit" "Submit Form" (8 / 10) = false ∧
    fuzzy_match "SUBMIT" "sUbMiT fOrM" (7 / 10) = true := by
  have h1 : pyLower "Submit" = "submit" := by decide
  have h2 : pyLower "Submitt" = "submitt" := by decide
  have h3 : pyLower "Submit Form" = "submit form" := by decide
  have h4 : pyLower "SUBMIT" = "submit" := by decide
  have h5 : pyLower "sUbMiT fOrM" = "submit form" := by decide
  refine ⟨fun _ _ _ => rfl, ?_, ?_, ?_, ?_⟩
  · simp only [fuzzy_match, h1, h2, seq_ratio_submit_submitt, decide_eq_true_eq]
    norm_num
  · simp only [fuzzy_match, h1, h3, seq_ratio_submit_submit_form, decide_eq_true_eq]
    norm_num
  · simp only [fuzzy_match, h1, h3, seq_ratio_submit_submit_form]
    rw [decide_eq_false_iff_not]
    norm_num
  · simp only [fuzzy_match, h4, h5, seq_ratio_submit_submit_form, decide_eq_true_eq]
    norm_num

/-! ## Lemmas about the stable priority sort -/

theorem insertStrategy_perm (s : SelectorStrategy) (l : List SelectorStrategy) :
    List.Perm (insertStrategy s l) (s :: l) := by
  induction l with
  | nil => rfl
  | cons t ts ih =>
    rw [insertStrategy]
    split
    · rfl
    · exact ((ih.cons t).trans (List.Perm.swap s t ts))

theorem sortStrategies_perm (l : List SelectorStrategy) :
    List.Perm (sortStrategies l) l := by
  induction l with
  | nil => rfl
  | cons s ss ih => exact (insertStrategy_perm s (sortStrategies ss)).trans (ih.cons s)

theorem mem_sortStrategies {l : List SelectorStrategy} {s : SelectorStrategy} :
    s ∈ sortStrategies l ↔ s ∈ l :=
  (sortStrategies_perm l).mem_iff

theorem pairwise_insertStrategy {s : SelectorStrategy} {l : List SelectorStrategy}
    (h : l.Pairwise (fun a b => a.priority ≤ b.priority)) :
    (insertStrategy s l).Pairwise (fun a b => a.priority ≤ b.priority) := by
  induction l with
  | nil => simp [insertStrategy]
  | cons t ts ih =>
    rw [insertStrategy]
    rcases List.pairwise_cons.mp h with ⟨ht, hts⟩
    split
    · rename_i hle
      refine List.pairwise_cons.mpr ⟨?_, h⟩
      intro y hy
      rcases List.mem_cons.mp hy with rfl | hy
      · exact hle
      · exact le_trans hle (ht y hy)
    · rename_i hgt
      refine List.pairwise_cons.mpr ⟨?_, ih hts⟩
      intro y hy
      rcases List.mem_cons.mp ((insertStrategy_perm s ts).mem_iff.mp hy) with rfl | h1
      · omega
      · exact ht y h1

theorem pairwise_sortStrategies (l : List SelectorStrategy) :
    (sortStrategies l).Pairwise (fun a b => a.priority ≤ b.priority) := by
  induction l with
  | nil => simp [sortStrategies]
  | cons s ss ih => exact pairwise_insertStrategy ih

theorem sortStrategies_cons_min {x : SelectorStrategy} {xs : List SelectorStrategy}
    (h : ∀ y ∈ xs, x.priority ≤ y.priority) :
    sortStrategies (x :: xs) = x :: sortStrategies xs := by
  rw [sortStrategies]
  rcases he : sortStrategies xs with _ | ⟨t, ts⟩
  · rfl
  · rw [insertStrategy, if_pos]
    have ht : t ∈ sortStrategies xs := by rw [he]; exact List.mem_cons_self t ts
    exact h t (mem_sortStrategies.mp ht)

/-! ## Segment characterizations for the Strategy Generator -/

theorem le_ite {n t e : Nat} (c : Prop) [Decidable c] (ht : n ≤ t) (he : n ≤ e) :
    n ≤ if c then t else e := by
  by_cases h : c
  · rwa [if_pos h]
  · rwa [if_neg h]

theorem calculate_xpath_priority_ge_two (xpath : String) (is_absolute : Bool) :
    2 ≤ calculate_xpath_priority xpath is_absolute :=
  le_ite _ (by omega) (le_ite _ (by omega) (le_ite _ (by omega) (le_ite _ (by omega)
    (le_ite _ (by omega) (le_ite _ (by omega) (le_ite _ (by omega) (le_ite _ (by omega)
    (le_ite _ (by omega) (le_ite _ (by omega) (le_ite _ (by omega) (by omega)))))))))))

theorem mem_if_singleton {P : Prop} [Decidable P] {t s : SelectorStrategy}
    (h : s ∈ (if P then [t] else [])) : s = t := by
  split at h
  · exact List.mem_singleton.mp h
  · simp at h

theorem mem_strategyRoleText {tag text : String} {attrs : List (String × String)}
    {s : SelectorStrategy} (h : s ∈ strategyRoleText tag text attrs) :
    s.type = "role_text" ∧ s.priority = 2 := by
  rw [strategyRoleText] at h
  rcases hr : infer_role tag attrs with _ | role
  · rw [hr] at h; simp at h
  · rw [hr] at h
    rcases mem_if_singleton h with rfl
    exact ⟨rfl, rfl⟩

theorem mem_optimizedStrategies {tag absx : String} {total : Nat} :
    ∀ {i : Nat} {l : List String} {s : SelectorStrategy},
      s ∈ optimizedStrategies tag absx total i l →
      s.type = "xpath" ∧ 2 ≤ s.priority := by
  intro i l
  induction l generalizing i with
  | nil => intro s h; simp [optimizedStrategies] at h
  | cons x xs ih =>
    intro s h
    rw [optimizedStrategies] at h
    rcases List.mem_append.mp h with h1 | h1
    · split at h1
      · simp at h1
      · rcases List.mem_singleton.mp h1 with rfl
        exact ⟨rfl, calculate_xpath_priority_ge_two x _⟩
    · exact ih h1

theorem mem_xpathTier {cfg : GeneratorConfig} {tag text xpath : String}
    {attrs : List (String × String)} {s : SelectorStrategy}
    (h : s ∈ xpathTier cfg tag text attrs xpath) :
    s.type = "xpath" ∧ 2 ≤ s.priority := by
  rw [xpathTier] at h
  by_cases he : cfg.enable_xpath_optimization = true
  · rw [if_pos he] at h
    by_cases hx : xpath ≠ ""
    · rw [if_pos hx] at h
      exact mem_optimizedStrategies h
    · rw [if_neg hx] at h
      rcases hg : generate_xpath tag text attrs with _ | v
      · rw [hg] at h
        exact absurd h (List.not_mem_nil s)
      · rw [hg] at h
        rcases List.mem_singleton.mp h with rfl
        exact ⟨rfl, (by omega : (2 : Nat) ≤ 8)⟩
  · rw [if_neg he] at h
    by_cases hx : xpath ≠ ""
    · rw [if_pos hx] at h
      rcases List.mem_singleton.mp h with rfl
      exact ⟨rfl, (by omega : (2 : Nat) ≤ 8)⟩
    · rw [if_neg hx] at h
      rcases hg : generate_xpath tag text attrs with _ | v
      · rw [hg] at h
        exact absurd h (List.not_mem_nil s)
      · rw [hg] at h
        rcases List.mem_singleton.mp h with rfl
        exact ⟨rfl, (by omega : (2 : Nat) ≤ 8)⟩

/-- Every generated strategy has positive priority, and the `xpath`-typed
ones never have priority below 2. -/
theorem mem_genUnsorted_bounds {cfg : GeneratorConfig} {ed : ElementData} {b : Bool}
    {s : SelectorStrategy} (h : s ∈ genUnsorted cfg ed b) :
    1 ≤ s.priority ∧ (s.type = "xpath" → 2 ≤ s.priority) ∧
    (s.type ≠ "xpath" → s.type ≠ "text_exact" → 2 ≤ s.priority) := by
  simp only [genUnsorted, strategyTextExact, strategyAriaLabel, strategyPlaceholder,
    strategyTitle, strategyAltText, strategyTextFuzzy, List.append_assoc,
    List.mem_append] at h
  rcases h with h | h | h | h | h | h | h | h
  · rcases mem_if_singleton h with rfl
    refine ⟨(by omega : (1 : Nat) ≤ 1), by intro hx; simp at hx, by intro _ hx; simp at hx⟩
  · rcases mem_strategyRoleText h with ⟨ht, hp⟩
    exact ⟨by omega, by intro hx; rw [hx] at ht; simp at ht, fun _ _ => by omega⟩
  · rcases mem_if_singleton h with rfl
    exact ⟨(by omega : (1 : Nat) ≤ 3), by intro hx; simp at hx,
      fun _ _ => (by omega : (2 : Nat) ≤ 3)⟩
  · rcases mem_if_singleton h with rfl
    exact ⟨(by omega : (1 : Nat) ≤ 4), by intro hx; simp at hx,
      fun _ _ => (by omega : (2 : Nat) ≤ 4)⟩
  · rcases mem_if_singleton h with rfl
    exact ⟨(by omega : (1 : Nat) ≤ 5), by intro hx; simp at hx,
      fun _ _ => (by omega : (2 : Nat) ≤ 5)⟩
  · rcases mem_if_singleton h with rfl
    exact ⟨(by omega : (1 : Nat) ≤ 6), by intro hx; simp at hx,
      fun _ _ => (by omega : (2 : Nat) ≤ 6)⟩
  · rcases mem_if_singleton h with rfl
    exact ⟨(by omega : (1 : Nat) ≤ 7), by intro hx; simp at hx,
      fun _ _ => (by omega : (2 : Nat) ≤ 7)⟩
  · split at h
    · rcases mem_xpathTier h with ⟨ht, hp⟩
      exact ⟨by omega, fun _ => hp, fun hx _ => absurd ht hx⟩
    · simp at h

/-! ## Claim theorems: Strategy Generator ordering (C3) -/

/-- C3: for a descriptor with non-empty trimmed text, the first strategy
returned by `generate_strategies` is the `text_exact` strategy with
priority 1, for every generator configuration and fallback flag — and the
interleaved `xpath` strategies never carry a priority below 2. -/
theorem c3_first_strategy_text_exact (cfg : GeneratorConfig) (ed : ElementData) (b : Bool)
    (h : pyStrip ed.text ≠ "") :
    (generate_strategies cfg ed b).head? =
      some { type := "text_exact", value := pyStrip ed.text, priority := 1,
             metadata := { tag := pyLower ed.tag_name } } ∧
    ∀ s ∈ generate_strategies cfg ed b, s.type = "xpath" → 2 ≤ s.priority := by
  have hcons : ∃ rest, genUnsorted cfg ed b =
      { type := "text_exact", value := pyStrip ed.text, priority := 1,
        metadata := { tag := pyLower ed.tag_name } } :: rest := by
    simp only [genUnsorted, strategyTextExact, if_pos h, List.append_assoc,
      List.singleton_append]
    exact ⟨_, rfl⟩
  obtain ⟨rest, hgen⟩ := hcons
  have hminrest : ∀ y ∈ rest,
      ({ type := "text_exact", value := pyStrip ed.text, priority := 1,
         metadata := { tag := pyLower ed.tag_name } } : SelectorStrategy).priority ≤
        y.priority := by
    intro y hy
    exact (mem_genUnsorted_bounds (by rw [hgen]; exact List.mem_cons_of_mem _ hy)).1
  have hsort := sortStrategies_cons_min hminrest
  constructor
  · simp only [generate_strategies, hgen, hsort]
    split
    · rename_i hc
      obtain ⟨k, hk⟩ := Nat.exists_eq_succ_of_ne_zero hc.1
      rw [hk, List.take_succ_cons]
      rfl
    · rfl
  · intro s hs hxty
    have hs' : s ∈ sortStrategies (genUnsorted cfg ed b) := by
      simp only [generate_strategies] at hs
      split at hs
      · exact List.take_subset _ _ hs
      · exact hs
    exact (mem_genUnsorted_bounds (mem_sortStrategies.mp hs')).2.1 hxty

/-- C3 (witness): a concrete button descriptor with text to trim. -/
theorem c3_first_strategy_text_exact_witness :
    pyStrip " Submit " ≠ "" ∧
    ((generate_strategies {} ⟨"button", " Submit ", [], ""⟩ true).head? =
      some { type := "text_exact", value := pyStrip " Submit ", priority := 1,
             metadata := { tag := pyLower "button" } } ∧
     ∀ s ∈ generate_strategies {} ⟨"button", " Submit ", [], ""⟩ true,
       s.type = "xpath" → 2 ≤ s.priority) :=
  ⟨by decide, c3_first_strategy_text_exact {} ⟨"button", " Submit ", [], ""⟩ true (by decide)⟩

/-! ## Claim theorems: no duplicate (kind, value) pairs (C4) -/

/-- Proof device: the position of a strategy kind in the generation order,
used to show strategies from different tiers have different kinds. -/
def typeRank (t : String) : Nat :=
  if t = "text_exact" then 0
  else if t = "role_text" then 1
  else if t = "aria_label" then 2
  else if t = "placeholder" then 3
  else if t = "title" then 4
  else if t = "alt_text" then 5
  else if t = "text_fuzzy" then 6
  else 7

theorem pairwise_R_concat {l₁ l₂ : List SelectorStrategy} {k : Nat}
    (h₁ : ∀ s ∈ l₁, typeRank s.type = k) (h₂ : ∀ s ∈ l₂, k < typeRank s.type)
    (p₁ : l₁.Pairwise (fun s t => s.type ≠ t.type ∨ s.value ≠ t.value))
    (p₂ : l₂.Pairwise (fun s t => s.type ≠ t.type ∨ s.value ≠ t.value)) :
    (l₁ ++ l₂).Pairwise (fun s t => s.type ≠ t.type ∨ s.value ≠ t.value) := by
  refine List.pairwise_append.mpr ⟨p₁, p₂, ?_⟩
  intro x hx y hy
  left
  intro he
  have hx' := h₁ x hx
  have hy' := h₂ y hy
  rw [he] at hx'
  omega

theorem pairwise_if_singleton {P : Prop} [Decidable P] {t : SelectorStrategy} :
    (if P then [t] else []).Pairwise (fun s u => s.type ≠ u.type ∨ s.value ≠ u.value) := by
  split <;> simp

theorem optimizedStrategies_values_sublist (tag absx : String) (total : Nat) :
    ∀ (i : Nat) (l : List String),
      ((optimizedStrategies tag absx total i l).map (·.value)).Sublist l := by
  intro i l
  induction l generalizing i with
  | nil => simp [optimizedStrategies]
  | cons x xs ih =>
    rw [optimizedStrategies]
    split
    · rw [List.nil_append]
      exact (ih (i + 1)).cons x
    · rw [List.singleton_append, List.map_cons]
      exact (ih (i + 1)).cons₂ x

theorem pairwise_values_xpathTier (cfg : GeneratorConfig) (tag text xpath : String)
    (attrs : List (String × String)) :
    (xpathTier cfg tag text attrs xpath).Pairwise (fun s t => s.value ≠ t.value) := by
  rw [xpathTier]
  by_cases he : cfg.enable_xpath_optimization = true
  · rw [if_pos he]
    by_cases hx : xpath ≠ ""
    · rw [if_pos hx]
      have hnd : ((optimizedStrategies tag xpath
          (optimize_xpath xpath (some ⟨tag, text, attrs⟩) cfg.max_xpath_alternatives).length 0
          (optimize_xpath xpath (some ⟨tag, text, attrs⟩) cfg.max_xpath_alternatives)).map
            (·.value)).Nodup :=
        (nodup_optimize_xpath xpath (some ⟨tag, text, attrs⟩)
          cfg.max_xpath_alternatives).sublist
          (optimizedStrategies_values_sublist tag xpath _ 0 _)
      have := List.pairwise_map.mp hnd
      exact this.imp (fun hne => hne)
    · rw [if_neg hx]
      rcases generate_xpath tag text attrs with _ | v <;> simp
  · rw [if_neg he]
    by_cases hx : xpath ≠ ""
    · rw [if_pos hx]
      simp
    · rw [if_neg hx]
      rcases generate_xpath tag text attrs with _ | v <;> simp

theorem pairwise_R_genUnsorted (cfg : GeneratorConfig) (ed : ElementData) (b : Bool) :
    (genUnsorted cfg ed b).Pairwise (fun s t => s.type ≠ t.type ∨ s.value ≠ t.value) := by
  have hsing : ∀ {P : Prop} [Decidable P] {t s : SelectorStrategy},
      s ∈ (if P then [t] else []) → s = t := fun h => mem_if_singleton h
  -- per-segment kind ranks
  have h1 : ∀ s ∈ strategyTextExact (pyLower ed.tag_name) (pyStrip ed.text),
      typeRank s.type = 0 := by
    intro s hs
    rw [strategyTextExact] at hs
    rcases hsing hs with rfl
    rfl
  have h2 : ∀ s ∈ strategyRoleText (pyLower ed.tag_name) (pyStrip ed.text) ed.attributes,
      typeRank s.type = 1 := by
    intro s hs
    rw [(mem_strategyRoleText hs).1]
    decide
  have h3 : ∀ s ∈ strategyAriaLabel (pyLower ed.tag_name) ed.attributes,
      typeRank s.type = 2 := by
    intro s hs
    rw [strategyAriaLabel] at hs
    rcases hsing hs with rfl
    rfl
  have h4 : ∀ s ∈ strategyPlaceholder (pyLower ed.tag_name) ed.attributes,
      typeRank s.type = 3 := by
    intro s hs
    rw [strategyPlaceholder] at hs
    rcases hsing hs with rfl
    rfl
  have h5 : ∀ s ∈ strategyTitle (pyLower ed.tag_name) ed.attributes,
      typeRank s.type = 4 := by
    intro s hs
    rw [strategyTitle] at hs
    rcases hsing hs with rfl
    rfl
  have h6 : ∀ s ∈ strategyAltText (pyLower ed.tag_name) ed.attributes,
      typeRank s.type = 5 := by
    intro s hs
    rw [strategyAltText] at hs
    rcases hsing hs with rfl
    rfl
  have h7 : ∀ s ∈ strategyTextFuzzy (pyLower ed.tag_name) (pyStrip ed.text),
      typeRank s.type = 6 := by
    intro s hs
    rw [strategyTextFuzzy] at hs
    rcases hsing hs with rfl
    rfl
  have h8 : ∀ s ∈ (if b = true then
      xpathTier cfg (pyLower ed.tag_name) (pyStrip ed.text) ed.attributes ed.xpath else []),
      typeRank s.type = 7 := by
    intro s hs
    split at hs
    · rw [(mem_xpathTier hs).1]
      decide
    · simp at hs
  -- pairwise inside each segment
  have p1 : (strategyTextExact (pyLower ed.tag_name) (pyStrip ed.text)).Pairwise
      (fun s t => s.type ≠ t.type ∨ s.value ≠ t.value) := pairwise_if_singleton
  have p2 : (strategyRoleText (pyLower ed.tag_name) (pyStrip ed.text) ed.attributes).Pairwise
      (fun s t => s.type ≠ t.type ∨ s.value ≠ t.value) := by
    rw [strategyRoleText]
    rcases infer_role (pyLower ed.tag_name) ed.attributes with _ | role
    · simp
    · exact pairwise_if_singleton
  have p3 : (strategyAriaLabel (pyLower ed.tag_name) ed.attributes).Pairwise
      (fun s t => s.type ≠ t.type ∨ s.value ≠ t.value) := pairwise_if_singleton
  have p4 : (strategyPlaceholder (pyLower ed.tag_name) ed.attributes).Pairwise
      (fun s t => s.type ≠ t.type ∨ s.value ≠ t.value) := pairwise_if_singleton
  have p5 : (strategyTitle (pyLower ed.tag_name) ed.attributes).Pairwise
      (fun s t => s.type ≠ t.type ∨ s.value ≠ t.value) := pairwise_if_singleton
  have p6 : (strategyAltText (pyLower ed.tag_name) ed.attributes).Pairwise
      (fun s t => s.type ≠ t.type ∨ s.value ≠ t.value) := pairwise_if_singleton
  have p7 : (strategyTextFuzzy (pyLower ed.tag_name) (pyStrip ed.text)).Pairwise
      (fun s t => s.type ≠ t.type ∨ s.value ≠ t.value) := pairwise_if_singleton
  have p8 : (if b = true then
      xpathTier cfg (pyLower ed.tag_name) (pyStrip ed.text) ed.attributes ed.xpath
      else []).Pairwise (fun s t => s.type ≠ t.type ∨ s.value ≠ t.value) := by
    split
    · exact (pairwise_values_xpathTier cfg (pyLower ed.tag_name) (pyStrip ed.text)
        ed.xpath ed.attributes).imp Or.inr
    · simp
  -- assemble the chain from the right
  have b8 : ∀ s ∈ (if b = true then
      xpathTier cfg (pyLower ed.tag_name) (pyStrip ed.text) ed.attributes ed.xpath else []),
      6 < typeRank s.type := fun s hs => by rw [h8 s hs]; omega
  have q7 := pairwise_R_concat h7 b8 p7 p8
  have b7 : ∀ s ∈ strategyTextFuzzy (pyLower ed.tag_name) (pyStrip ed.text) ++
      (if b = true then
        xpathTier cfg (pyLower ed.tag_name) (pyStrip ed.text) ed.attributes ed.xpath else []),
      5 < typeRank s.type := by
    intro s hs
    rcases List.mem_append.mp hs with hm | hm
    · rw [h7 s hm]; omega
    · rw [h8 s hm]; omega
  have q6 := pairwise_R_concat h6 b7 p6 q7
  have b6 : ∀ s ∈ strategyAltText (pyLower ed.tag_name) ed.attributes ++
      (strategyTextFuzzy (pyLower ed.tag_name) (pyStrip ed.text) ++
       (if b = true then
         xpathTier cfg (pyLower ed.tag_name) (pyStrip ed.text) ed.attributes ed.xpath else [])),
      4 < typeRank s.type := by
    intro s hs
    rcases List.mem_append.mp hs with hm | hm
    · rw [h6 s hm]; omega
    · exact lt_trans (by omega) (b7 s hm)
  have q5 := pairwise_R_concat h5 b6 p5 q6
  have b5 : ∀ s ∈ strategyTitle (pyLower ed.tag_name) ed.attributes ++
      (strategyAltText (pyLower ed.tag_name) ed.attributes ++
       (strategyTextFuzzy (pyLower ed.tag_name) (pyStrip ed.text) ++
        (if b = true then
          xpathTier cfg (pyLower ed.tag_name) (pyStrip ed.text) ed.attributes ed.xpath
          else []))),
      3 < typeRank s.type := by
    intro s hs
    rcases List.mem_append.mp hs with hm | hm
    · rw [h5 s hm]; omega
    · exact lt_trans (by omega) (b6 s hm)
  have q4 := pairwise_R_concat h4 b5 p4 q5
  have b4 : ∀ s ∈ strategyPlaceholder (pyLower ed.tag_name) ed.attributes ++
      (strategyTitle (pyLower ed.tag_name) ed.attributes ++
       (strategyAltText (pyLower ed.tag_name) ed.attributes ++
        (strategyTextFuzzy (pyLower ed.tag_name) (pyStrip ed.text) ++
         (if b = true then
           xpathTier cfg (pyLower ed.tag_name) (pyStrip ed.text) ed.attributes ed.xpath
           else [])))),
      2 < typeRank s.type := by
    intro s hs
    rcases List.mem_append.mp hs with hm | hm
    · rw [h4 s hm]; omega
    · exact lt_trans (by omega) (b5 s hm)
  have q3 := pairwise_R_concat h3 b4 p3 q4
  have b3 : ∀ s ∈ strategyAriaLabel (pyLower ed.tag_name) ed.attributes ++
      (strategyPlaceholder (pyLower ed.tag_name) ed.attributes ++
       (strategyTitle (pyLower ed.tag_name) ed.attributes ++
        (strategyAltText (pyLower ed.tag_name) ed.attributes ++
         (strategyTextFuzzy (pyLower ed.tag_name) (pyStrip ed.text) ++
          (if b = true then
            xpathTier cfg (pyLower ed.tag_name) (pyStrip ed.text) ed.attributes ed.xpath
            else []))))),
      1 < typeRank s.type := by
    intro s hs
    rcases List.mem_append.mp hs with hm | hm
    · rw [h3 s hm]; omega
    · exact lt_trans (by omega) (b4 s hm)
  have q2 := pairwise_R_concat h2 b3 p2 q3
  have b2 : ∀ s ∈ strategyRoleText (pyLower ed.tag_name) (pyStrip ed.text) ed.attributes ++
      (strategyAriaLabel (pyLower ed.tag_name) ed.attributes ++
       (strategyPlaceholder (pyLower ed.tag_name) ed.attributes ++
        (strategyTitle (pyLower ed.tag_name) ed.attributes ++
         (strategyAltText (pyLower ed.tag_name) ed.attributes ++
          (strategyTextFuzzy (pyLower ed.tag_name) (pyStrip ed.text) ++
           (if b = true then
             xpathTier cfg (pyLower ed.tag_name) (pyStrip ed.text) ed.attributes ed.xpath
             else [])))))),
      0 < typeRank s.type := by
    intro s hs
    rcases List.mem_append.mp hs with hm | hm
    · rw [h2 s hm]; omega
    · exact lt_trans (by omega) (b3 s hm)
  have q1 := pairwise_R_concat h1 b2 p1 q2
  simpa only [genUnsorted, List.append_assoc] using q1

/-- C4: a generated strategy list never contains two entries with
identical (kind, value) pairs, for every configuration, descriptor and
fallback flag. -/
theorem c4_no_duplicate_kind_value (cfg : GeneratorConfig) (ed : ElementData) (b : Bool) :
    (generate_strategies cfg ed b).Pairwise
      (fun s t => s.type ≠ t.type ∨ s.value ≠ t.value) := by
  have hsym : Symmetric (fun s t : SelectorStrategy => s.type ≠ t.type ∨ s.value ≠ t.value) := by
    intro x y hxy
    rcases hxy with hv | hv
    · exact Or.inl (Ne.symm hv)
    · exact Or.inr (Ne.symm hv)
  have hsorted : (sortStrategies (genUnsorted cfg ed b)).Pairwise
      (fun s t => s.type ≠ t.type ∨ s.value ≠ t.value) :=
    ((sortStrategies_perm (genUnsorted cfg ed b)).pairwise_iff
      (fun h => hsym h)).mpr (pairwise_R_genUnsorted cfg ed b)
  simp only [generate_strategies]
  split
  · exact hsorted.sublist (List.take_sublist _ _)
  · exact hsorted

/-! ## Claim theorems: locator priority order and first success (C6) -/

theorem tryStrategy_cases (page : Page) (sel : Option (List (Nat × Node)))
    (tt : Option String) (s : SelectorStrategy) :
    (∃ loc, tryStrategy page sel tt s = (some loc, successAttempt s)) ∨
    (∃ msg, tryStrategy page sel tt s = (none, failAttempt s msg)) := by
  rw [tryStrategy]
  by_cases hx : s.type = "xpath"
  · rw [if_pos hx]
    rcases hfx : find_with_xpath s.value page tt with _ | r
    · exact Or.inr ⟨_, rfl⟩
    · exact Or.inl ⟨_, rfl⟩
  · rw [if_neg hx]
    by_cases hsem : selTruthy sel = true ∧ s.type ∈ semanticTypes
    · rw [if_pos hsem]
      rcases hfs : find_with_semantic_strategy s.type s.value s.metadata (sel.getD []) tt
        with _ | r
      · exact Or.inr ⟨_, rfl⟩
      · exact Or.inl ⟨_, rfl⟩
    · rw [if_neg hsem]
      exact Or.inr ⟨_, rfl⟩

theorem findLoop_attempts_prefix (page : Page) (sel : Option (List (Nat × Node)))
    (tt : Option String) :
    ∀ l : List SelectorStrategy,
      ((findLoop page sel tt l).2.map (·.priority)).IsPrefix (l.map (·.priority)) := by
  intro l
  induction l with
  | nil => exact ⟨[], rfl⟩
  | cons s rest ih =>
    rw [findLoop]
    rcases tryStrategy_cases page sel tt s with ⟨loc, heq⟩ | ⟨msg, heq⟩
    · rw [heq]
      refine ⟨rest.map (·.priority), ?_⟩
      simp [successAttempt]
    · rw [heq]
      obtain ⟨t, ht⟩ := ih
      exact ⟨t, by simp only [List.map_cons, List.cons_append, ht, failAttempt]⟩

theorem findLoop_first_success (page : Page) (sel : Option (List (Nat × Node)))
    (tt : Option String) :
    ∀ (l : List SelectorStrategy) (loc : Loc) (st : SelectorStrategy),
      (findLoop page sel tt l).1 = some (loc, st) →
      ∃ pre, (findLoop page sel tt l).2 = pre ++ [successAttempt st] ∧
        ∀ a ∈ pre, a.success = false := by
  intro l
  induction l with
  | nil =>
    intro loc st h
    simp [findLoop] at h
  | cons s rest ih =>
    intro loc st h
    rw [findLoop] at h ⊢
    rcases tryStrategy_cases page sel tt s with ⟨loc', heq⟩ | ⟨msg, heq⟩
    · rw [heq] at h ⊢
      simp only [Option.some_inj, Prod.mk.injEq] at h
      rcases h with ⟨_, rfl⟩
      exact ⟨[], rfl, by simp⟩
    · rw [heq] at h ⊢
      obtain ⟨pre, hpre, hfail⟩ := ih loc st h
      refine ⟨failAttempt s msg :: pre, by simp only [List.cons_append, hpre], ?_⟩
      intro a ha
      rcases List.mem_cons.mp ha with rfl | ha
      · rfl
      · exact hfail a ha

/-- The concrete unsorted scenario of C6: an `aria_label` strategy at
priority 3 listed before a `text_exact` strategy at priority 1. -/
def c6Aria : SelectorStrategy :=
  { type := "aria_label", value := "Nav", priority := 3, metadata := { tag := "button" } }

/-- The `text_exact` strategy of the C6 scenario. -/
def c6Text : SelectorStrategy :=
  { type := "text_exact", value := "Submit", priority := 1, metadata := { tag := "button" } }

/-- The C6 scenario node: visible, with matching text. -/
def c6Node : Node := { text := "Submit", tag_name := "button" }

/-- The C6 scenario environment: a live page whose path evaluator finds
nothing, and a snapshot containing only `c6Node` at index 5. -/
def c6Env : Env := ⟨some ⟨fun _ => none⟩, some [(5, c6Node)]⟩

/-- C6: strategies are tried in ascending priority order regardless of the
input ordering (the audit trail's priorities are always non-decreasing),
the locate call returns the match of the first strategy that succeeds
(everything before the successful audit entry failed), and concretely the
unsorted input `[{aria_label, priority 3}, {text_exact, priority 1}]`
against a snapshot with a `text_exact` match tries `text_exact` first and
returns its match. -/
theorem c6_priority_order_first_success :
    (∀ (strategies : List SelectorStrategy) (env : Env) (tt : Option String),
       ((find_element_with_strategies strategies env tt).2.map (·.priority)).Pairwise
         (· ≤ ·)) ∧
    (∀ (strategies : List SelectorStrategy) (env : Env) (tt : Option String)
       (loc : Loc) (st : SelectorStrategy),
       (find_element_with_strategies strategies env tt).1 = some (loc, st) →
       ∃ pre, (find_element_with_strategies strategies env tt).2 =
           pre ++ [successAttempt st] ∧ ∀ a ∈ pre, a.success = false) ∧
    find_element_with_strategies [c6Aria, c6Text] c6Env none =
      (some (Loc.elementIndex 5, c6Text), [successAttempt c6Text]) := by
  refine ⟨?_, ?_, ?_⟩
  · intro strategies env tt
    rcases strategies with _ | ⟨s, rest⟩
    · simp [find_element_with_strategies]
    · rcases hp : env.page with _ | page
      · simp [find_element_with_strategies, hp]
      · have hpref := findLoop_attempts_prefix page env.selector_map tt
          (sortStrategies (s :: rest))
        have hsorted : ((sortStrategies (s :: rest)).map (·.priority)).Pairwise (· ≤ ·) :=
          List.pairwise_map.mpr (pairwise_sortStrategies (s :: rest))
        have := hsorted.sublist hpref.sublist
        simpa [find_element_with_strategies, hp] using this
  · intro strategies env tt loc st h
    rcases strategies with _ | ⟨s, rest⟩
    · simp [find_element_with_strategies] at h
    · rcases hp : env.page with _ | page
      · simp [find_element_with_strategies, hp] at h
      · simp only [find_element_with_strategies, hp] at h ⊢
        exact findLoop_first_success page env.selector_map tt (sortStrategies (s :: rest))
          loc st h
  · rfl

/-- C6 (witness): the first-success decomposition instantiated at the
concrete unsorted scenario. -/
theorem c6_priority_order_first_success_witness :
    ∃ pre, (find_element_with_strategies [c6Aria, c6Text] c6Env none).2 =
      pre ++ [successAttempt c6Text] ∧ ∀ a ∈ pre, a.success = false :=
  c6_priority_order_first_success.2.1 [c6Aria, c6Text] c6Env none
    (Loc.elementIndex 5) c6Text rfl

/-! ## Claim theorems: parsing round-trip (C2) -/

theorem mem_takeWhile {p : Char → Bool} :
    ∀ {l : List Char} {a : Char}, a ∈ l.takeWhile p → p a = true := by
  intro l
  induction l with
  | nil => intro a h; simp at h
  | cons c cs ih =>
    intro a h
    rw [List.takeWhile_cons] at h
    by_cases hc : p c
    · rw [if_pos hc] at h
      rcases List.mem_cons.mp h with rfl | h
      · exact hc
      · exact ih h
    · rw [if_neg hc] at h
      simp at h

/-- Structure of a segment accepted by the regex: a non-empty run of tag
characters, optionally followed by a non-empty bracketed digit run. -/
theorem matchSegment_isSome_shape {s : List Char} (h : (matchSegment s).isSome) :
    s = s.takeWhile isTagChar ++ s.dropWhile isTagChar ∧ s.takeWhile isTagChar ≠ [] ∧
      (∀ c ∈ s.takeWhile isTagChar, isTagChar c) ∧
      (s.dropWhile isTagChar = [] ∨
       ∃ ds, s.dropWhile isTagChar = '[' :: (ds ++ [']']) ∧ ds ≠ [] ∧ ∀ c ∈ ds, c.isDigit) := by
  simp only [matchSegment] at h
  split at h
  · simp at h
  · rename_i ht
    refine ⟨(List.takeWhile_append_dropWhile _ _).symm, ht, fun c hc => mem_takeWhile hc, ?_⟩
    split at h
    · rename_i hr
      exact Or.inl hr
    · rename_i r hr
      split at h
      · rename_i hcond
        refine Or.inr ⟨r.takeWhile Char.isDigit, ?_, hcond.1, fun d hd => mem_takeWhile hd⟩
        rw [hr, ← hcond.2, List.takeWhile_append_dropWhile]
      · simp at h
    · simp at h

theorem matchSegment_no_slash {s : List Char} (h : (matchSegment s).isSome) : '/' ∉ s := by
  obtain ⟨hs, _, htag, hrest⟩ := matchSegment_isSome_shape h
  intro hmem
  rw [hs] at hmem
  rcases List.mem_append.mp hmem with hm | hm
  · exact absurd (htag _ hm) (by decide)
  · rcases hrest with hr | ⟨ds, hr, _, hdig⟩
    · rw [hr] at hm
      simp at hm
    · rw [hr] at hm
      rcases List.mem_cons.mp hm with h1 | h1
      · exact absurd h1 (by decide)
      · rcases List.mem_append.mp h1 with h2 | h2
        · exact absurd (hdig _ h2) (by decide)
        · exact absurd (List.mem_singleton.mp h2) (by decide)

theorem matchSegment_head {s : List Char} (h : (matchSegment s).isSome) :
    ∃ c cs', s = c :: cs' ∧ isTagChar c = true := by
  obtain ⟨hs, ht, htag, _⟩ := matchSegment_isSome_shape h
  rcases he : s.takeWhile isTagChar with _ | ⟨c, cs⟩
  · exact absurd he ht
  · refine ⟨c, cs ++ s.dropWhile isTagChar, ?_, ?_⟩
    · conv_lhs => rw [hs, he]
      rw [List.cons_append]
    · exact htag c (by rw [he]; exact List.mem_cons_self _ _)

theorem splitOnChar_no_sep : ∀ {s : List Char}, '/' ∉ s → splitOnChar '/' s = [s] := by
  intro s
  induction s with
  | nil => intro _; rfl
  | cons c cs ih =>
    intro h
    have hc : ¬(c = '/') := fun he => h (he ▸ List.mem_cons_self _ _)
    have hcs : '/' ∉ cs := fun hm => h (List.mem_cons_of_mem _ hm)
    simp only [splitOnChar, ih hcs, if_neg hc]

theorem splitOnChar_append_sep :
    ∀ {s : List Char} (t : List Char), '/' ∉ s →
      splitOnChar '/' (s ++ '/' :: t) = s :: splitOnChar '/' t := by
  intro s
  induction s with
  | nil =>
    intro t _
    rw [List.nil_append]
    simp [splitOnChar]
  | cons c cs ih =>
    intro t h
    have hc : ¬(c = '/') := fun he => h (he ▸ List.mem_cons_self _ _)
    have hcs : '/' ∉ cs := fun hm => h (List.mem_cons_of_mem _ hm)
    rw [List.cons_append]
    simp only [splitOnChar, ih t hcs, if_neg hc]

theorem splitOnChar_joinSlash :
    ∀ {segs : List (List Char)}, segs ≠ [] → (∀ s ∈ segs, '/' ∉ s) →
      splitOnChar '/' (joinSlash segs) = segs := by
  intro segs
  induction segs with
  | nil => intro h _; exact absurd rfl h
  | cons s rest ih =>
    intro _ hall
    cases rest with
    | nil => exact splitOnChar_no_sep (hall s (List.mem_cons_self _ _))
    | cons t r =>
      rw [joinSlash, splitOnChar_append_sep _ (hall s (List.mem_cons_self _ _)),
        ih (by simp) (fun x hx => hall x (List.mem_cons_of_mem _ hx))]

theorem joinSlash_head {s : List Char} {c : Char} {cs' : List Char} (hs : s = c :: cs')
    (rest : List (List Char)) : ∃ u, joinSlash (s :: rest) = c :: u := by
  cases rest with
  | nil => exact ⟨cs', by rw [joinSlash, hs]⟩
  | cons t r => exact ⟨cs' ++ '/' :: joinSlash (t :: r), by rw [joinSlash, hs, List.cons_append]⟩

/-- The parser keeps exactly the well-formed segments of the split, in
order — the "malformed segments are skipped, parsing never throws" part
of C2, stated for every input. -/
theorem parse_skips_malformed (cs : List Char) :
    (parseXpathChars cs).map (·.original) =
      (splitOnChar '/' (cs.dropWhile (· = '/'))).filter (fun seg => (matchSegment seg).isSome) := by
  rw [parseXpathChars]
  generalize splitOnChar '/' (cs.dropWhile (· = '/')) = l
  induction l with
  | nil => rfl
  | cons s rest ih =>
    rw [List.filterMap_cons, List.filter_cons]
    rcases hm : matchSegment s with _ | v
    · simp [hm, ih]
    · simp [hm, ih]

theorem filterMap_original_of_matched :
    ∀ (l : List (List Char)), (∀ s ∈ l, (matchSegment s).isSome) →
      ((l.filterMap fun seg => (matchSegment seg).map fun ti =>
          Segment.mk (String.mk ti.1) ti.2 seg).map (·.original)) = l := by
  intro l
  induction l with
  | nil => intro _; rfl
  | cons s rest ih =>
    intro h2
    obtain ⟨v, hv⟩ := Option.isSome_iff_exists.mp (h2 s (List.mem_cons_self _ _))
    rw [List.filterMap_cons]
    simp [hv, ih (fun x hx => h2 x (List.mem_cons_of_mem _ hx))]

/-- C2 (amended): for an absolute path built as a leading separator
followed by well-formed segments joined by the separator, parsing yields
exactly those segments as `original` texts, and re-joining them (with the
leading separator restored) reproduces the input path exactly; on
arbitrary input, parsing is total and keeps exactly the well-formed
segments of the split (see `parse_skips_malformed`). -/
theorem c2_parse_roundtrip (segs : List (List Char)) (h1 : segs ≠ [])
    (h2 : ∀ s ∈ segs, (matchSegment s).isSome) :
    (parse_xpath (String.mk ('/' :: joinSlash segs))).map (·.original) = segs ∧
    '/' :: joinSlash ((parse_xpath (String.mk ('/' :: joinSlash segs))).map (·.original)) =
      (String.mk ('/' :: joinSlash segs)).data := by
  have hmain : (parse_xpath (String.mk ('/' :: joinSlash segs))).map (·.original) = segs := by
    show (parseXpathChars ('/' :: joinSlash segs)).map (·.original) = segs
    have hdrop : ('/' :: joinSlash segs).dropWhile (· = '/') = joinSlash segs := by
      rw [List.dropWhile_cons]
      rw [if_pos (by decide)]
      cases segs with
      | nil => exact absurd rfl h1
      | cons s rest =>
        obtain ⟨c, cs', hs, hc⟩ := matchSegment_head (h2 s (List.mem_cons_self _ _))
        obtain ⟨u, hu⟩ := joinSlash_head hs rest
        rw [hu, List.dropWhile_cons, if_neg]
        intro he
        have hce : c = '/' := of_decide_eq_true he
        rw [hce] at hc
        exact absurd hc (by decide)
    rw [parseXpathChars, hdrop,
      splitOnChar_joinSlash h1 (fun s hs => matchSegment_no_slash (h2 s hs))]
    exact filterMap_original_of_matched segs h2
  exact ⟨hmain, by rw [hmain]⟩

/-- C2 (witness): a concrete well-formed path `/div/td[3]`. -/
theorem c2_parse_roundtrip_witness :
    (parse_xpath (String.mk ('/' :: joinSlash [['d', 'i', 'v'], ['t', 'd', '[', '3', ']']]))).map
        (·.original) = [['d', 'i', 'v'], ['t', 'd', '[', '3', ']']] ∧
    '/' :: joinSlash ((parse_xpath (String.mk ('/' ::
        joinSlash [['d', 'i', 'v'], ['t', 'd', '[', '3', ']']]))).map (·.original)) =
      (String.mk ('/' :: joinSlash [['d', 'i', 'v'], ['t', 'd', '[', '3', ']']])).data :=
  c2_parse_roundtrip [['d', 'i', 'v'], ['t', 'd', '[', '3', ']']] (by decide) (by decide)

/-- C2 (counterexample): on `/html/body/*` the malformed segment `*` is
skipped, so re-joining the parsed segments' original text — with or
without restoring the leading separator — does not reproduce the input. -/
theorem c2_counterexample :
    joinSlash ((parse_xpath "/html/body/*").map (·.original)) ≠ "/html/body/*".data ∧
    '/' :: joinSlash ((parse_xpath "/html/body/*").map (·.original)) ≠ "/html/body/*".data := by
  decide

end RPA
